import Mathlib

/-!
# Verification of the BERT-keras transformer model assembly

A shallow embedding of `src/transformer/layers.py` and
`src/transformer/model.py`.  Tensors are modelled at two levels:

* shape level: a rank-3 tensor shape is a triple `(batch, seq, channels)`
  of naturals, and each layer contributes the shape function its
  `compute_output_shape` / graph construction defines;
* value level: matrices over `ℚ` for the weight-tying layer, flat `List ℚ`
  buffers for the numpy checkpoint loading, and `ℝ`-valued feature vectors
  for layer normalization.

Several modules the two files import (`transformer/funcs.py`,
`transformer/embedding.py`, `data/vocab.py`) are not part of the sources;
their pieces are modelled from the spec and marked as such in their doc
comments.
-/

set_option autoImplicit false

namespace BERTKeras

/-- A rank-3 tensor shape `(batch, seq, channels)`. -/
abbrev Shape3 := Nat × Nat × Nat

/-- Result of checking an `Except` for success, as Python code either
raises or returns. -/
def exOk {ε α : Type} : Except ε α → Bool
  | .ok _ => true
  | .error _ => false

/-! ## Framework layers used with fixed shapes

`Conv1D(filters, 1)` is a pointwise linear map: it keeps batch and
sequence dimensions and replaces the channel dimension by `filters`. -/

/-- Shape of `Conv1D(filters, 1)` applied to a rank-3 tensor. -/
def Conv1D.outputShape (filters : Nat) (x : Shape3) : Shape3 :=
  (x.1, x.2.1, filters)

/-- `Add` merges two tensors of identical shape; the framework rejects a
mismatch when the graph is built. -/
def Add.outputShape (x y : Shape3) : Except String Shape3 :=
  if x = y then .ok x else .error "Add: incompatible shapes"

/-! ## SelfAttention (`layers.py`, lines 7-22) -/

/-- Configuration stored by `SelfAttention.__init__`. -/
structure SelfAttention where
  n_head : Nat
  n_state : Nat
  attention_dropout : ℚ
  ignore_mask : Bool

/-- `SelfAttention.compute_output_shape`: with the representation shape
`x` extracted from the input (`input_shape` itself when `ignore_mask`,
otherwise `input_shape[0]`), the declared output is
`(x[0], x[1], x[2] // 3)`. -/
def SelfAttention.compute_output_shape (_l : SelfAttention) (x : Shape3) : Shape3 :=
  (x.1, x.2.1, x.2.2 / 3)

/-- Modelled from the spec: `self_attention` lives in
`transformer/funcs.py`, which is absent from the sources.  Per §4.1 it
reshapes the last dimension `3*n_state` into `n_head` heads of size
`n_state/n_head` for each of query/key/value, attends per head, and
concatenates the heads back, so the value actually produced has channel
dimension `n_head * (n_state / n_head)`. -/
def self_attention_shape (n_head n_state : Nat) (x : Shape3) : Shape3 :=
  (x.1, x.2.1, n_head * (n_state / n_head))

/-! ## MultiHeadAttention / PositionWiseFF / EncoderLayer (`model.py`) -/

/-- Configuration of a constructed `MultiHeadAttention`. -/
structure MultiHeadAttention where
  n_state : Nat
  n_head : Nat

/-- `MultiHeadAttention.__init__`: the first statement is
`assert n_state % n_head == 0`; only when it passes are the
`c_attn`/`self_attn`/`c_attn_proj` sub-layers constructed. -/
def MultiHeadAttention.init (n_state n_head : Nat) : Except String MultiHeadAttention :=
  if n_state % n_head = 0 then .ok ⟨n_state, n_head⟩
  else .error "AssertionError: n_state % n_head != 0"

/-- Shape of `MultiHeadAttention.__call__`: `c_attn` projects to
`3*n_state` channels, `self_attn` declares the channel dimension divided
by 3, and `c_attn_proj` projects to `n_state`. -/
def MultiHeadAttention.callShape (m : MultiHeadAttention) (x : Shape3) : Shape3 :=
  Conv1D.outputShape m.n_state
    (SelfAttention.compute_output_shape ⟨m.n_head, m.n_state, 0, false⟩
      (Conv1D.outputShape (3 * m.n_state) x))

/-- Shape of `PositionWiseFF.__call__`: expand to `d_hid` channels,
`Gelu` (shape preserving), project back to `n_state`. -/
def PositionWiseFF.callShape (n_state d_hid : Nat) (x : Shape3) : Shape3 :=
  Conv1D.outputShape n_state (Conv1D.outputShape d_hid x)

/-- Configuration of a constructed `EncoderLayer`. -/
structure EncoderLayer where
  attention : MultiHeadAttention
  d_hid : Nat

/-- `EncoderLayer.__init__` constructs its `MultiHeadAttention`, whose
assert may fire; the norm/dropout/add sub-layers carry no shape data. -/
def EncoderLayer.init (n_state n_head d_hid : Nat) : Except String EncoderLayer := do
  let m ← MultiHeadAttention.init n_state n_head
  return ⟨m, d_hid⟩

/-- Shape of `EncoderLayer.__call__`: `Dropout` and `LayerNormalization`
preserve shape, each `Add` requires its two inputs to agree. -/
def EncoderLayer.callShape (l : EncoderLayer) (x : Shape3) : Except String Shape3 := do
  let a := l.attention.callShape x
  let n ← Add.outputShape x a
  let f := PositionWiseFF.callShape l.attention.n_state l.d_hid n
  Add.outputShape n f

/-! ## create_model (`model.py`, lines 55-79) -/

/-- Modelled from the spec: the `Embedding` component is
`transformer/embedding.py`, absent from the sources.  Per §2 and §6 it
consumes token/segment/position ids of shape `(batch, max_len)` and
produces the initial representation of shape
`(batch, max_len, embedding_dim)`. -/
def Embedding.outputShape (embedding_dim max_len batch : Nat) : Shape3 :=
  (batch, max_len, embedding_dim)

/-- The `for i in range(num_layers)` loop of `create_model`:
construct an `EncoderLayer` (its assert may fire) and thread the
representation through it, `num_layers` times. -/
def stackLayers (n_state n_head d_hid : Nat) : Nat → Shape3 → Except String Shape3
  | 0, x => .ok x
  | k + 1, x => do
      let l ← EncoderLayer.init n_state n_head d_hid
      let x' ← l.callShape x
      stackLayers n_state n_head d_hid k x'

/-- `TimeDistributed(TiedEmbeddingsTransposed(..., units=vocab_size))`
applies the dense decoder at each sequence position: channels become
`vocab_size`. -/
def TiedDecoder.outputShape (vocab_size : Nat) (x : Shape3) : Shape3 :=
  Conv1D.outputShape vocab_size x

/-- Shape-level `create_model`: the embedding output is threaded through
`num_layers` encoder layers, the tied decoder produces the logits, and
the model returns `[x, logits]` in that order. -/
def create_model (embedding_dim vocab_size max_len num_heads num_layers d_hid batch : Nat) :
    Except String (Shape3 × Shape3) := do
  let x0 := Embedding.outputShape embedding_dim max_len batch
  let x ← stackLayers embedding_dim num_heads d_hid num_layers x0
  let logits := TiedDecoder.outputShape vocab_size x
  return (x, logits)

/-! ## TiedEmbeddingsTransposed (`layers.py`, lines 66-74)

Value-level model of the weight tying.  The layer's kernel slot is either
an independent matrix (what `Dense.build` creates) or a reference to the
transpose of the live token-embedding weight (what
`self.kernel = K.transpose(self.tied_to.weights[0])` installs); a
reference is evaluated against the current value of the embedding
weight, an independent matrix ignores it. -/

/-- A `V × D` rational weight matrix (the token-embedding weight has
vocabulary rows and feature columns). -/
abbrev Mat (m n : Nat) := Matrix (Fin m) (Fin n) ℚ

/-- What the `kernel` attribute of the tied layer can hold. -/
inductive KernelSlot (V D : Nat) where
  | independent (M : Mat D V)
  | transposeOfEmbedding
  deriving DecidableEq

/-- The kernel a forward pass sees, given the current value `W` of the
token-embedding weight. -/
def KernelSlot.eval {V D : Nat} (k : KernelSlot V D) (W : Mat V D) : Mat D V :=
  match k with
  | .independent M => M
  | .transposeOfEmbedding => W.transpose

/-- One entry of a layer's `trainable_weights` list. -/
inductive TrainSlot (V D : Nat) where
  | kernelSlot (M : Mat D V)
  | biasSlot (b : Fin V → ℚ)

/-- State of the tied layer relevant to tying: its kernel attribute and
its `trainable_weights` list. -/
structure TiedEmbeddingsTransposed (V D : Nat) where
  kernel : KernelSlot V D
  trainable_weights : List (TrainSlot V D)

/-- Modelled from the spec: `Dense.build` of the host framework (§4.5
describes the base dense layer) creates an independent kernel of shape
`(input_dim, units)` and a bias of shape `(units,)`, listing its
trainable weights as `[kernel, bias]`. -/
def Dense.build (V D : Nat) (initK : Mat D V) (initB : Fin V → ℚ) :
    TiedEmbeddingsTransposed V D :=
  { kernel := .independent initK
    trainable_weights := [.kernelSlot initK, .biasSlot initB] }

/-- `TiedEmbeddingsTransposed.build`: run `super().build` (the dense
build), then overwrite the kernel attribute with the transpose of
`tied_to.weights[0]`, then shrink `trainable_weights` to
`[self.trainable_weights[1]]`. -/
def TiedEmbeddingsTransposed.build (V D : Nat) (initK : Mat D V) (initB : Fin V → ℚ) :
    TiedEmbeddingsTransposed V D :=
  let l := Dense.build V D initK initB
  let l := { l with kernel := .transposeOfEmbedding }
  { l with trainable_weights := [l.trainable_weights.getD 1 (.kernelSlot initK)] }

/-! ## LayerNormalization (`layers.py`, lines 25-41) -/

namespace Kb

/-- `K.mean(x, axis=-1)` over one feature vector. -/
noncomputable def mean {d : Nat} (x : Fin d → ℝ) : ℝ :=
  (∑ j, x j) / d

/-- `K.std(x, axis=-1)`: square root of the (population) variance. -/
noncomputable def std {d : Nat} (x : Fin d → ℝ) : ℝ :=
  Real.sqrt ((∑ j, (x j - mean x) ^ 2) / d)

end Kb

/-- `LayerNormalization.__init__` stores `eps`. -/
structure LayerNormalization where
  eps : ℝ

/-- The default of the `eps` keyword argument, `1e-6`. -/
noncomputable def LayerNormalization.default : LayerNormalization :=
  ⟨1 / 1000000⟩

/-- The weights `LayerNormalization.build` creates for feature dimension
`d` (the last entry of the input shape): `gamma` and `beta`, both of
shape `(d,)`. -/
structure BuiltLayerNorm (d : Nat) where
  gamma : Fin d → ℝ
  beta : Fin d → ℝ
  eps : ℝ

/-- `LayerNormalization.build`: `gamma` from the `Ones()` init, `beta`
from the `Zeros()` init. -/
def LayerNormalization.build (l : LayerNormalization) (d : Nat) : BuiltLayerNorm d :=
  { gamma := fun _ => 1, beta := fun _ => 0, eps := l.eps }

/-- `LayerNormalization.call`, per position `p` (any batch/sequence
index) and feature `j`:
`self.gamma * (inputs - mean) / (std + self.eps) + self.beta` with mean
and std taken over the feature axis of position `p`. -/
noncomputable def LayerNormalization.call {P : Type} {d : Nat}
    (l : BuiltLayerNorm d) (x : P → Fin d → ℝ) : P → Fin d → ℝ :=
  fun p j => l.gamma j * (x p j - Kb.mean (x p)) / (Kb.std (x p) + l.eps) + l.beta j

/-- The spec's wording of the same computation: subtract the mean,
divide by (standard deviation + epsilon), scale by `gamma`, shift by
`beta`. -/
noncomputable def LayerNormalization.callSpec {P : Type} {d : Nat}
    (l : BuiltLayerNorm d) (x : P → Fin d → ℝ) : P → Fin d → ℝ :=
  fun p j => l.gamma j * ((x p j - Kb.mean (x p)) / (Kb.std (x p) + l.eps)) + l.beta j

/-- `LayerNormalization.compute_output_shape` returns the input shape. -/
def LayerNormalization.compute_output_shape (s : List Nat) : List Nat := s

/-! ## PositionIdGenerator (`layers.py`, lines 55-63) -/

/-- Modelled from the spec: `shape_list` lives in
`transformer/funcs.py`, absent from the sources; per §4.4 the generator
reads the input's sequence-length dimension, so `shape_list` returns the
dimensions `[batch, seq_len]` of its rank-2 integer input. -/
def shape_list {b L : Nat} (_x : Fin b → Fin L → ℤ) : List Nat := [b, L]

/-- `K.arange(n)`: the integers `0, 1, ..., n-1`. -/
def Kb.arange (n : Nat) : List ℤ :=
  (List.range n).map Int.ofNat

/-- `K.reshape(v, (1, -1))` on a flat vector: one row holding the whole
vector, so the result has shape `(1, v.length)`. -/
def Kb.reshapeRow (v : List ℤ) : List (List ℤ) := [v]

/-- `PositionIdGenerator.call`:
`K.reshape(K.arange(shape_list(inputs)[1]), (1, -1))`. -/
def PositionIdGenerator.call {b L : Nat} (inputs : Fin b → Fin L → ℤ) :
    List (List ℤ) :=
  Kb.reshapeRow (Kb.arange ((shape_list inputs).getD 1 0))

/-! ## EncoderLayer dataflow (`model.py`, lines 48-52)

The block's wiring is modelled over an arbitrary value type `α`, with
each named sub-layer an abstract function, exactly as the four lines of
`EncoderLayer.__call__` compose them. -/

/-- `EncoderLayer.__call__` for sub-layer functions `attention`, `drop1`,
`ln1`, `ffn`, `drop2`, `ln2` and the `Add` merge `add`:
`a = self.attention(x, mask)`;
`n = self.ln1(self.add1([x, self.drop1(a)]))`;
`f = self.ffn(n)`;
`return self.ln2(self.add2([n, self.drop2(f)]))`. -/
def EncoderLayer.callValue {α μ : Type}
    (attention : α → μ → α) (drop1 ln1 ffn drop2 ln2 : α → α)
    (add : α → α → α) (x : α) (mask : μ) : α :=
  let a := attention x mask
  let n := ln1 (add x (drop1 a))
  let f := ffn n
  ln2 (add n (drop2 f))

/-- The spec's wording of the block (§4.6): a post-norm block where each
residual addition happens before its normalization, and the second
residual adds the first normalized value `n`, not `x`. -/
def EncoderLayer.callPostNorm {α μ : Type}
    (attention : α → μ → α) (drop1 ln1 ffn drop2 ln2 : α → α)
    (add : α → α → α) (x : α) (mask : μ) : α :=
  ln2 (add (ln1 (add x (drop1 (attention x mask))))
    (drop2 (ffn (ln1 (add x (drop1 (attention x mask)))))))

/-- The rejected alternative reading in which the second residual would
add the block input `x` instead of the normalized value `n`. -/
def EncoderLayer.callSecondResidualFromX {α μ : Type}
    (attention : α → μ → α) (drop1 ln1 ffn drop2 ln2 : α → α)
    (add : α → α → α) (x : α) (mask : μ) : α :=
  let a := attention x mask
  let n := ln1 (add x (drop1 a))
  let f := ffn n
  ln2 (add x (drop2 f))

/-! ## load_openai_model (`model.py`, lines 84-104)

A numpy array is a flat rational buffer plus a shape; `reshape` retags
the shape over the same buffer.  The ten `params_*.npy` archives and the
standard-normal draws are inputs of the model. -/

/-- A numpy array: row-major flat data and a declared shape. -/
structure NpArr where
  data : List ℚ
  shape : List Nat
  deriving DecidableEq

/-- `np.prod` of a shape. -/
def npProd (s : List Nat) : Nat := s.foldr (· * ·) 1

/-- `np.cumsum` with a running total `acc`. -/
def npCumsumFrom (acc : Nat) : List Nat → List Nat
  | [] => []
  | s :: ss => (acc + s) :: npCumsumFrom (acc + s) ss

/-- `np.cumsum`. -/
def npCumsum (l : List Nat) : List Nat := npCumsumFrom 0 l

/-- `np.split` at absolute indices, having already consumed the buffer
up to position `prev`: each index closes one piece, and the remainder
past the last index is the final piece. -/
def npSplitFrom (arr : List ℚ) (prev : Nat) : List Nat → List (List ℚ)
  | [] => [arr.drop prev]
  | i :: is => (arr.drop prev).take (i - prev) :: npSplitFrom arr i is

/-- `np.split(arr, idxs)`. -/
def npSplit (arr : List ℚ) (idxs : List Nat) : List (List ℚ) :=
  npSplitFrom arr 0 idxs

/-- Successive chunks of `arr` of the given sizes (the spec's reading of
the split: slice `i` is the contiguous segment of length `sizes[i]`
starting at the running sum of the earlier sizes). -/
def chunksOf (arr : List ℚ) : List Nat → List (List ℚ)
  | [] => []
  | s :: ss => arr.take s :: chunksOf (arr.drop s) ss

/-- `init_params[1] = np.concatenate((init_params[1], rows), axis=0)`
where `rows = np.random.randn(SPECIAL_COUNT, 768) * 0.02`: row-major
concatenation along axis 0 appends the flattened rows to the buffer and
adds `SPECIAL_COUNT` to the leading extent. -/
def extendTokenEmbedding (SPECIAL_COUNT : Nat) (randn : List ℚ) (a : NpArr) : NpArr :=
  { data := a.data ++ randn.map (fun r => r * (2 / 100 : ℚ))
    shape :=
      match a.shape with
      | [] => []
      | v :: rest => (v + SPECIAL_COUNT) :: rest }

/-- In-place update of list entry 1, as `init_params[1] = ...` performs
on a list with at least two entries (Python would raise otherwise, and
both the source and spec readings below totalize identically). -/
def updateIndex1 {α : Type} (f : α → α) : List α → List α
  | p0 :: p1 :: rest => p0 :: f p1 :: rest
  | l => l

/-- The zero-filled segment-embedding parameter
`np.zeros((NUM_SEGMENTS, 768))`. -/
def segmentZeros (NUM_SEGMENTS : Nat) : NpArr :=
  ⟨List.replicate (NUM_SEGMENTS * 768) 0, [NUM_SEGMENTS, 768]⟩

/-- The zero-filled decoder bias
`np.zeros((40478 + SPECIAL_COUNT,))`. -/
def decoderBiasZeros (SPECIAL_COUNT : Nat) : NpArr :=
  ⟨List.replicate (40478 + SPECIAL_COUNT) 0, [40478 + SPECIAL_COUNT]⟩

/-- The parameter-assembly phase of `load_openai_model`, translated
statement by statement.  `SPECIAL_COUNT` and `NUM_SEGMENTS` come from
`data/vocab.py` (absent from the sources) and stay abstract; `shapes` is
the parsed `params_shapes.json`; `archives n` is the flat content of
`params_n.npy` for the ten indices `n = 0..9`; `randn` is the flattened
fresh standard-normal draw. -/
def load_openai_params (SPECIAL_COUNT NUM_SEGMENTS : Nat)
    (shapes : List (List Nat)) (archives : Fin 10 → List ℚ) (randn : List ℚ) :
    List NpArr :=
  let offsets := npCumsum (shapes.map npProd)
  let flat := ((List.finRange 10).map archives).flatten
  let pieces := (npSplit flat offsets).dropLast
  let reshaped := (pieces.zip shapes).map (fun p => NpArr.mk p.1 p.2)
  let withSpecial := updateIndex1 (extendTokenEmbedding SPECIAL_COUNT randn) reshaped
  let withSegment := segmentZeros NUM_SEGMENTS :: withSpecial
  withSegment ++ [decoderBiasZeros SPECIAL_COUNT]

/-- The claim's reading of the same assembly: slice the concatenated
archives into contiguous segments whose lengths are the products of the
manifest shapes, tag each segment with its declared shape, then perform
the three structural edits. -/
def load_openai_params_spec (SPECIAL_COUNT NUM_SEGMENTS : Nat)
    (shapes : List (List Nat)) (archives : Fin 10 → List ℚ) (randn : List ℚ) :
    List NpArr :=
  let flat := ((List.finRange 10).map archives).flatten
  let slices := chunksOf flat (shapes.map npProd)
  let reshaped := (slices.zip shapes).map (fun p => NpArr.mk p.1 p.2)
  let withSpecial := updateIndex1 (extendTokenEmbedding SPECIAL_COUNT randn) reshaped
  segmentZeros NUM_SEGMENTS :: withSpecial ++ [decoderBiasZeros SPECIAL_COUNT]

/-- The framework's `model.set_weights(init_params)`: a positional bulk
overwrite that fails on a count or per-entry shape mismatch and
otherwise installs the given values, with no semantic check (spec §7). -/
def set_weights (modelW : List (List Nat)) (params : List NpArr) :
    Except String (List NpArr) :=
  if params.length == modelW.length
      && (modelW.zip params).all (fun q => q.1 == q.2.shape) then
    .ok params
  else
    .error "ValueError: incompatible weights"

/-- The injection phase of `load_openai_model`: when `debug` is set,
`assert len(model.weights) == len(init_params)` and one shape-equality
assert per pair run first; `model.set_weights(init_params)` runs in
either case. -/
def load_finalize (debug : Bool) (modelW : List (List Nat)) (initParams : List NpArr) :
    Except String (List NpArr) :=
  if debug then
    if initParams.length == modelW.length then
      if (modelW.zip initParams).all (fun q => q.1 == q.2.shape) then
        set_weights modelW initParams
      else .error "AssertionError"
    else .error "AssertionError"
  else set_weights modelW initParams

/-! ## Theorems -/

/-- C1: after `TiedEmbeddingsTransposed.build` has run, the layer's
kernel evaluates to the exact transpose of the token-embedding weight
for every current value `W` of that weight — hence also after any
subsequent update to it — and the kernel slot holds no independent
copy. -/
theorem tiedEmbeddings_kernel_is_live_transpose (V D : Nat) (initK : Mat D V)
    (initB : Fin V → ℚ) :
    (∀ W : Mat V D,
        (TiedEmbeddingsTransposed.build V D initK initB).kernel.eval W = W.transpose)
    ∧ ∀ M : Mat D V,
        (TiedEmbeddingsTransposed.build V D initK initB).kernel ≠ KernelSlot.independent M := by
  refine ⟨fun W => rfl, fun M h => ?_⟩
  simp [TiedEmbeddingsTransposed.build, Dense.build] at h

/-- C10: after `TiedEmbeddingsTransposed.build`, the trainable-weights
list is exactly one entry long, equal to the second entry of the freshly
built dense layer's trainable weights — the bias — and no kernel entry
is in the trainable set. -/
theorem tiedEmbeddings_trainable_is_dense_bias (V D : Nat) (initK : Mat D V)
    (initB : Fin V → ℚ) :
    (TiedEmbeddingsTransposed.build V D initK initB).trainable_weights
        = [(Dense.build V D initK initB).trainable_weights.getD 1 (.kernelSlot initK)]
    ∧ (TiedEmbeddingsTransposed.build V D initK initB).trainable_weights
        = [.biasSlot initB]
    ∧ ∀ M : Mat D V,
        TrainSlot.kernelSlot M ∉
          (TiedEmbeddingsTransposed.build V D initK initB).trainable_weights := by
  refine ⟨rfl, rfl, fun M h => ?_⟩
  simp [TiedEmbeddingsTransposed.build, Dense.build] at h

/-- C5: `EncoderLayer.__call__` is the post-norm block
`ln2 (n + drop2 (ffn n))` with `n = ln1 (x + drop1 (attention x mask))`
— each residual addition happens before its normalization, and the
second residual adds `n`, not `x`, as a concrete instantiation over `ℤ`
separates. -/
theorem encoderLayer_post_norm_order :
    (∀ (α μ : Type) (attention : α → μ → α) (drop1 ln1 ffn drop2 ln2 : α → α)
        (add : α → α → α) (x : α) (mask : μ),
        EncoderLayer.callValue attention drop1 ln1 ffn drop2 ln2 add x mask
          = EncoderLayer.callPostNorm attention drop1 ln1 ffn drop2 ln2 add x mask)
    ∧ EncoderLayer.callValue (α := ℤ) (μ := Unit)
        (fun v _ => v) id (fun v => v + 1) id id id (· + ·) 1 () = 6
    ∧ EncoderLayer.callSecondResidualFromX (α := ℤ) (μ := Unit)
        (fun v _ => v) id (fun v => v + 1) id id id (· + ·) 1 () = 4 :=
  ⟨fun _ _ _ _ _ _ _ _ _ _ _ => rfl, rfl, rfl⟩

/-- C7: `LayerNormalization` computes, per position over the feature
axis, `gamma * (x - mean x) / (std x + eps) + beta`; `gamma` is built
all ones and `beta` all zeros, both of the feature dimension; the `eps`
default is `1e-6`; the output shape equals the input shape. -/
theorem layerNormalization_formula :
    (∀ (P : Type) (d : Nat) (l : BuiltLayerNorm d) (x : P → Fin d → ℝ),
        LayerNormalization.call l x = LayerNormalization.callSpec l x)
    ∧ (∀ (le : LayerNormalization) (d : Nat),
        (le.build d).gamma = fun _ => (1 : ℝ))
    ∧ (∀ (le : LayerNormalization) (d : Nat),
        (le.build d).beta = fun _ => (0 : ℝ))
    ∧ LayerNormalization.default.eps = 1 / 1000000
    ∧ ∀ s : List Nat, LayerNormalization.compute_output_shape s = s := by
  refine ⟨fun P d l x => ?_, fun le d => rfl, fun le d => rfl, rfl, fun s => rfl⟩
  funext p j
  simp [LayerNormalization.call, LayerNormalization.callSpec, mul_div_assoc]

/-- C8: `PositionIdGenerator` on any input with sequence length `L`
returns the row `[0, 1, ..., L-1]` as a `(1, L)`-shaped value, and the
result does not depend on the batch size or the input entries. -/
theorem positionIdGenerator_range (L : Nat) :
    (∀ (b : Nat) (x : Fin b → Fin L → ℤ),
        PositionIdGenerator.call x = [(List.range L).map Int.ofNat]
        ∧ (PositionIdGenerator.call x).length = 1
        ∧ ((PositionIdGenerator.call x).headD []).length = L)
    ∧ ∀ (b b' : Nat) (x : Fin b → Fin L → ℤ) (y : Fin b' → Fin L → ℤ),
        PositionIdGenerator.call x = PositionIdGenerator.call y := by
  refine ⟨fun b x => ⟨rfl, rfl, ?_⟩, fun b b' x y => rfl⟩
  simp [PositionIdGenerator.call, Kb.reshapeRow, Kb.arange, shape_list]

/-- C6: whenever `n_head` divides `n_state`, `SelfAttention` on an input
of shape `(b, s, 3*n_state)` has declared output shape
`(b, s, n_state)`, the attention value modelled from the spec has the
same shape, and in general the declared output shape is the input shape
with its last dimension divided by 3. -/
theorem selfAttention_output_shape (b s n_state n_head : Nat) (dropout : ℚ)
    (im : Bool) (h : n_state % n_head = 0) :
    SelfAttention.compute_output_shape ⟨n_head, n_state, dropout, im⟩ (b, s, 3 * n_state)
        = (b, s, n_state)
    ∧ self_attention_shape n_head n_state (b, s, 3 * n_state) = (b, s, n_state)
    ∧ ∀ sh : Shape3,
        SelfAttention.compute_output_shape ⟨n_head, n_state, dropout, im⟩ sh
          = (sh.1, sh.2.1, sh.2.2 / 3) := by
  refine ⟨?_, ?_, fun sh => rfl⟩
  · simp [SelfAttention.compute_output_shape, Nat.mul_div_cancel_left n_state (by norm_num : 0 < 3)]
  · simp [self_attention_shape, Nat.mul_div_cancel' (Nat.dvd_of_mod_eq_zero h)]

/-- Witness for `selfAttention_output_shape` at
`n_state = 64, n_head = 4` on a `(2, 3, 192)` input. -/
theorem selfAttention_output_shape_witness :
    (64 : Nat) % 4 = 0
    ∧ (SelfAttention.compute_output_shape ⟨4, 64, (0 : ℚ), false⟩ (2, 3, 3 * 64)
          = (2, 3, 64)
        ∧ self_attention_shape 4 64 (2, 3, 3 * 64) = (2, 3, 64)
        ∧ ∀ sh : Shape3,
            SelfAttention.compute_output_shape ⟨4, 64, (0 : ℚ), false⟩ sh
              = (sh.1, sh.2.1, sh.2.2 / 3)) :=
  ⟨rfl, selfAttention_output_shape 2 3 64 4 0 false rfl⟩

/-- C4: `load_openai_model` runs its own count/shape assertions exactly
when `debug` is true — with `debug = false` the function is the bare
`set_weights` call — so a positional misassignment whose shapes coincide
(here: two `(2,)` parameters delivered swapped) is installed without any
failure. -/
theorem load_debug_gate (modelW : List (List Nat)) (params : List NpArr) :
    load_finalize false modelW params = set_weights modelW params
    ∧ load_finalize true modelW params =
        (if params.length == modelW.length
            && (modelW.zip params).all (fun q => q.1 == q.2.shape) then
          set_weights modelW params
        else .error "AssertionError")
    ∧ load_finalize false [[2], [2]]
        [NpArr.mk [3, 4] [2], NpArr.mk [1, 2] [2]]
        = .ok [NpArr.mk [3, 4] [2], NpArr.mk [1, 2] [2]] := by
  refine ⟨rfl, ?_, rfl⟩
  by_cases h1 : params.length == modelW.length
  · by_cases h2 : (modelW.zip params).all (fun q => q.1 == q.2.shape)
    · simp [load_finalize, h1, h2]
    · simp [load_finalize, h1, h2]
  · simp [load_finalize, h1]

/-- C2: for every batch size `b`, the model of
`create_model(num_layers=2, embedding_dim=64, num_heads=4, max_len=16,
vocab_size=100)` (with the default `d_hid = 768*4`) is built without
error and its two outputs have shapes `(b, 16, 64)` (final hidden
states) and `(b, 16, 100)` (vocabulary logits), in that order. -/
theorem create_model_output_shapes (b : Nat) :
    create_model 64 100 16 4 2 (768 * 4) b = .ok ((b, 16, 64), (b, 16, 100)) := by
  simp [create_model, stackLayers, EncoderLayer.init, MultiHeadAttention.init,
    EncoderLayer.callShape, MultiHeadAttention.callShape, PositionWiseFF.callShape,
    Add.outputShape, Conv1D.outputShape, SelfAttention.compute_output_shape,
    Embedding.outputShape, TiedDecoder.outputShape, bind, Except.bind, pure, Except.pure]

/-- An encoder layer whose divisibility assert passes preserves a
representation whose channel dimension is its `n_state`, so the whole
stack succeeds on such a representation. -/
theorem stackLayers_ok (n_state n_head d_hid b s : Nat) (h : n_state % n_head = 0) :
    ∀ k, stackLayers n_state n_head d_hid k (b, s, n_state) = .ok (b, s, n_state) := by
  intro k
  induction k with
  | zero => rfl
  | succ k ih =>
    have h3 : 3 * n_state / 3 = n_state :=
      Nat.mul_div_cancel_left n_state (by norm_num)
    simp [stackLayers, EncoderLayer.init, MultiHeadAttention.init, h,
      EncoderLayer.callShape, MultiHeadAttention.callShape, PositionWiseFF.callShape,
      Add.outputShape, Conv1D.outputShape, SelfAttention.compute_output_shape, h3, ih,
      bind, Except.bind, pure, Except.pure]

/-- C9: constructing a `MultiHeadAttention` — and hence an
`EncoderLayer`, and a model through `create_model` whenever at least one
layer is stacked — succeeds exactly when `n_state % n_head == 0`; the
assertion fires at construction and never fires under divisibility. -/
theorem multiHeadAttention_divisibility_assert :
    (∀ n_state n_head : Nat,
        exOk (MultiHeadAttention.init n_state n_head) = (n_state % n_head == 0))
    ∧ (∀ n_state n_head d_hid : Nat,
        exOk (EncoderLayer.init n_state n_head d_hid) = (n_state % n_head == 0))
    ∧ ∀ dim vocab max_len heads layers d_hid b : Nat,
        exOk (create_model dim vocab max_len heads layers d_hid b)
          = (layers == 0 || dim % heads == 0) := by
  have hmha : ∀ n_state n_head : Nat,
      exOk (MultiHeadAttention.init n_state n_head) = (n_state % n_head == 0) := by
    intro n_state n_head
    by_cases h : n_state % n_head = 0
    · simp [MultiHeadAttention.init, h, exOk]
    · have hb : (n_state % n_head == 0) = false := beq_eq_false_iff_ne.mpr h
      simp [MultiHeadAttention.init, h, exOk, hb]
  refine ⟨hmha, fun n_state n_head d_hid => ?_, fun dim vocab max_len heads layers d_hid b => ?_⟩
  · by_cases h : n_state % n_head = 0
    · simp [EncoderLayer.init, MultiHeadAttention.init, h, exOk, bind, Except.bind, pure, Except.pure]
    · have hb : (n_state % n_head == 0) = false := beq_eq_false_iff_ne.mpr h
      simp [EncoderLayer.init, MultiHeadAttention.init, h, exOk, hb, bind, Except.bind, pure, Except.pure]
  · cases layers with
    | zero => simp [create_model, stackLayers, exOk, bind, Except.bind, pure, Except.pure]
    | succ k =>
      by_cases h : dim % heads = 0
      · simp [create_model, Embedding.outputShape, stackLayers_ok dim heads d_hid b max_len h,
          exOk, h, bind, Except.bind, pure, Except.pure]
      · have hb : (dim % heads == 0) = false := beq_eq_false_iff_ne.mpr h
        simp [create_model, Embedding.outputShape, stackLayers, EncoderLayer.init,
          MultiHeadAttention.init, h, exOk, hb, bind, Except.bind, pure, Except.pure]

/-- Splitting a buffer at the running sums of `ss`, having already
consumed `prev` entries, yields the successive chunks of the given sizes
followed by the remainder past all of them. -/
theorem npSplitFrom_cumsum (arr : List ℚ) :
    ∀ (ss : List Nat) (prev : Nat),
      npSplitFrom arr prev (npCumsumFrom prev ss)
        = chunksOf (arr.drop prev) ss ++ [arr.drop (prev + ss.sum)] := by
  intro ss
  induction ss with
  | nil => intro prev; simp [npSplitFrom, npCumsumFrom, chunksOf]
  | cons s ss ih =>
    intro prev
    simp only [npCumsumFrom, npSplitFrom, chunksOf, List.cons_append, List.sum_cons]
    rw [ih (prev + s), List.drop_drop]
    have e1 : prev + s - prev = s := by omega
    have e3 : prev + s + ss.sum = prev + (s + ss.sum) := by omega
    rw [e1, e3]

/-- `np.split` at `np.cumsum` of the sizes, with the final remainder
piece dropped, is exactly the chunk decomposition by sizes. -/
theorem npSplit_dropLast (arr : List ℚ) (sizes : List Nat) :
    (npSplit arr (npCumsum sizes)).dropLast = chunksOf arr sizes := by
  have h := npSplitFrom_cumsum arr sizes 0
  simp only [List.drop_zero, Nat.zero_add] at h
  simp only [npSplit, npCumsum, h, List.dropLast_concat]

/-- The chunk decomposition produces one piece per requested size. -/
theorem chunksOf_length (sizes : List Nat) :
    ∀ arr : List ℚ, (chunksOf arr sizes).length = sizes.length := by
  induction sizes with
  | nil => intro arr; rfl
  | cons s ss ih => intro arr; simp [chunksOf, ih]

/-- Updating entry 1 in place does not change the length of a list. -/
theorem updateIndex1_length {α : Type} (f : α → α) :
    ∀ l : List α, (updateIndex1 f l).length = l.length := by
  intro l
  match l with
  | [] => rfl
  | [p0] => rfl
  | p0 :: p1 :: rest => rfl

/-- C3: the parameter assembly of `load_openai_model` equals its spec
reading — concatenate the ten archives in file order, cut contiguous
slices whose lengths are the products of the manifest shapes (i.e. split
at the running sums), tag each slice with its shape, then perform
exactly the three structural edits.  Moreover the result has
`shapes.length + 2` entries, starts with the zero segment embedding of
shape `(NUM_SEGMENTS, 768)`, ends with the zero decoder bias of length
`40478 + SPECIAL_COUNT`, and its entry 2 is the manifest's slice 1 —
the segment of length `prod shapes[1]` starting at offset
`prod shapes[0]` — extended by the `0.02`-scaled fresh rows. -/
theorem load_openai_params_structure (SPECIAL_COUNT NUM_SEGMENTS : Nat)
    (shapes : List (List Nat)) (archives : Fin 10 → List ℚ) (randn : List ℚ) :
    load_openai_params SPECIAL_COUNT NUM_SEGMENTS shapes archives randn
        = load_openai_params_spec SPECIAL_COUNT NUM_SEGMENTS shapes archives randn
    ∧ (load_openai_params SPECIAL_COUNT NUM_SEGMENTS shapes archives randn).length
        = shapes.length + 2
    ∧ (load_openai_params SPECIAL_COUNT NUM_SEGMENTS shapes archives randn)[0]?
        = some (segmentZeros NUM_SEGMENTS)
    ∧ (load_openai_params SPECIAL_COUNT NUM_SEGMENTS shapes archives randn).getLast?
        = some (decoderBiasZeros SPECIAL_COUNT)
    ∧ ∀ (s0 s1 : List Nat) (rest : List (List Nat)),
        (load_openai_params SPECIAL_COUNT NUM_SEGMENTS (s0 :: s1 :: rest) archives randn)[2]?
          = some (extendTokenEmbedding SPECIAL_COUNT randn
              ⟨((((List.finRange 10).map archives).flatten).drop (npProd s0)).take (npProd s1),
                s1⟩) := by
  refine ⟨?_, ?_, ?_, ?_, ?_⟩
  · simp only [load_openai_params, load_openai_params_spec, npSplit_dropLast,
      List.cons_append]
  · simp only [load_openai_params, npSplit_dropLast, List.length_append,
      List.length_cons, updateIndex1_length, List.length_zip, List.length_map,
      chunksOf_length, List.length_nil, Nat.min_self]
  · simp [load_openai_params]
  · simp only [load_openai_params, List.getLast?_concat]
  · intro s0 s1 rest
    simp [load_openai_params, npSplit_dropLast, chunksOf, updateIndex1]

end BERTKeras
